import Mathlib

/-!
Shallow embedding of the session-based guided-workflow state machines of
the `tool-as-guide` repository:

* `src/examples/01-pizza-ordering/pizza_guide.py` (`PizzaOrderGuide`)
* `src/examples/02-medical-triage/triage_guide.py` (`MedicalTriageGuide`)

Python strings are modelled as Lean `String`s, with the Python string
operations used by the sources (`lower`, `strip`, `split`, `replace`,
substring containment via `in`) re-implemented over `List Char` so that
every definition evaluates by kernel reduction.  Python dicts keyed by
session id are modelled as association lists with first-match lookup and
in-place replacement, matching dict update/delete semantics.  Wall-clock
data (`datetime.now()` timestamps, `created_at`) and the random UUID of
`start_*` are external inputs: the UUID becomes an explicit `sid`
parameter and timestamps are dropped from audit entries, whose step names
and order are kept.  Result dictionaries are modelled as structures with
optional fields (a missing dict key is `none` / `false`).
-/

/-- Python `needle in hay` on lists of characters: `true` iff `needle`
occurs contiguously inside `hay` (the empty list occurs in everything). -/
def substringOf (needle : List Char) : List Char → Bool
  | [] => needle.isEmpty
  | c :: t => needle.isPrefixOf (c :: t) || substringOf needle t

/-- Python `needle in hay` on strings. -/
def pyIn (needle hay : String) : Bool := substringOf needle.data hay.data

/-- Python `s.lower()`. -/
def pyLower (s : String) : String := ⟨s.data.map Char.toLower⟩

/-- Python `s.strip()`: drop whitespace from both ends. -/
def pyStrip (s : String) : String :=
  ⟨((s.data.dropWhile Char.isWhitespace).reverse.dropWhile Char.isWhitespace).reverse⟩

/-- Helper for Python `s.split(",")`. -/
def splitCommaAux : List Char → List (List Char)
  | [] => [[]]
  | c :: t =>
    let r := splitCommaAux t
    if c = ',' then [] :: r
    else
      match r with
      | [] => [[c]]
      | h :: t2 => (c :: h) :: t2

/-- Python `s.split(",")` (on the empty string it yields `[""]`). -/
def pySplitComma (s : String) : List String := (splitCommaAux s.data).map String.mk

/-- Fuelled worker for Python `s.replace(pat, repl)`; the fuel (the length
of the input) makes the recursion structural so it reduces in the kernel. -/
def replaceGo (pat repl : List Char) : Nat → List Char → List Char
  | _, [] => []
  | 0, s => s
  | fuel+1, c :: t =>
      if pat.isPrefixOf (c :: t) then
        repl ++ replaceGo pat repl fuel (t.drop (pat.length - 1))
      else c :: replaceGo pat repl fuel t

/-- Python `s.replace(pat, repl)` (left-to-right, non-overlapping). -/
def pyReplace (s pat repl : String) : String :=
  ⟨replaceGo pat.data repl.data s.data.length s.data⟩

/-- Python `", ".join(xs)`. -/
def joinComma : List String → String
  | [] => ""
  | [x] => x
  | x :: xs => x ++ ", " ++ joinComma xs

/-! ## Session stores

Python keeps live sessions in an in-process dict `self.sessions`; we model
it as an association list: `storeGet` is dict lookup, `storeSet` is
`d[k] = v` (replace in place, else append), `storeErase` is `del d[k]`. -/

/-- Dict lookup `sessions.get(sid)`. -/
def storeGet {α : Type} : List (String × α) → String → Option α
  | [], _ => none
  | p :: t, k => if p.fst = k then some p.snd else storeGet t k

/-- Dict update `sessions[sid] = v`. -/
def storeSet {α : Type} : List (String × α) → String → α → List (String × α)
  | [], k, v => [(k, v)]
  | p :: t, k, v => if p.fst = k then (k, v) :: t else p :: storeSet t k v

/-- Dict deletion `del sessions[sid]`. -/
def storeErase {α : Type} : List (String × α) → String → List (String × α)
  | [], _ => []
  | p :: t, k => if p.fst = k then storeErase t k else p :: storeErase t k

/-! ## Pizza ordering guide (`pizza_guide.py`) -/

/-- `PizzaOrder` dataclass (pizza_guide.py lines 14-35); `created_at` is a
wall-clock value and is not modelled.  Note the dataclass declares no
audit-trail field. -/
structure PizzaOrder where
  session_id : String
  state : String := "START"
  crust : Option String := none
  category : Option String := none
  toppings : List String := []
  size : Option String := none
deriving DecidableEq, Repr

/-- The audit trail of a pizza order: `PizzaOrder` (pizza_guide.py lines
14-35) declares no audit-trail field, so every pizza session's trail is
the empty sequence. -/
def PizzaOrder.auditTrail (_ : PizzaOrder) : List String := []

/-- The result dict returned by `PizzaOrderGuide` operations; keys absent
from a given return site are `none` (`stay_in_state` absent means `false`). -/
structure PizzaResult where
  status : String
  session_id : Option String := none
  action : Option String := none
  prompt : Option String := none
  message : Option String := none
  next_state : Option String := none
  stay_in_state : Bool := false
  instructions_for_ai : Option String := none
  available_toppings : Option (List String) := none
  order_summary : Option String := none
  order : Option PizzaOrder := none
deriving DecidableEq, Repr

/-- `PizzaOrderGuide.CRUSTS`. -/
def CRUSTS : List String := ["Thin", "Regular", "Thick", "Gluten-free"]

/-- `PizzaOrderGuide.SIZES`. -/
def SIZES : List String := ["Small (10\")", "Medium (12\")", "Large (14\")", "Extra Large (16\")"]

/-- `PizzaOrderGuide.VEGETARIAN_TOPPINGS`. -/
def VEGETARIAN_TOPPINGS : List String :=
  ["Mushrooms", "Olives", "Bell Peppers", "Onions",
   "Tomatoes", "Spinach", "Artichokes", "Pineapple"]

/-- `PizzaOrderGuide.MEAT_TOPPINGS`. -/
def MEAT_TOPPINGS : List String :=
  ["Pepperoni", "Sausage", "Ham", "Bacon",
   "Chicken", "Ground Beef", "Salami"]

/-- `PizzaOrderGuide._match_option` (lines 281-289): first option that
contains, or is contained in, the lowercased stripped input. -/
def matchOption (userInput : String) (options : List String) : Option String :=
  let u := pyStrip (pyLower userInput)
  options.find? (fun o => pyIn (pyLower o) u || pyIn u (pyLower o))

/-- Python `.title()` used by `_generate_summary` (capitalise the first
letter of each word, lowercase the rest). -/
def titleGo : Bool → List Char → List Char
  | _, [] => []
  | prevAlpha, c :: t =>
      (if prevAlpha then Char.toLower c else Char.toUpper c) :: titleGo c.isAlpha t

/-- Python `s.title()`. -/
def pyTitle (s : String) : String := ⟨titleGo false s.data⟩

/-- `PizzaOrderGuide._generate_summary` (lines 271-279); Python renders a
missing (`None`) field as the text `None`. -/
def generateSummary (order : PizzaOrder) : String :=
  "• Size: " ++ order.size.getD "None"
    ++ "\n• Crust: " ++ order.crust.getD "None"
    ++ "\n• Category: " ++ pyTitle (order.category.getD "None")
    ++ "\n• Toppings: " ++ joinComma order.toppings

/-- `PizzaOrderGuide._handle_crust_choice` (lines 120-145). -/
def handleCrustChoice (order : PizzaOrder) (response : String) : PizzaOrder × PizzaResult :=
  match matchOption response CRUSTS with
  | none =>
    (order,
     { status := "in_progress", session_id := some order.session_id,
       action := some "ask_user",
       prompt := some ("I didn't catch that. Please choose from: " ++ joinComma CRUSTS),
       stay_in_state := true,
       instructions_for_ai := some "The user's response was unclear. Ask them to choose from the listed options." })
  | some crust =>
    let order := { order with crust := some crust, state := "CHOOSE_CATEGORY" }
    (order,
     { status := "in_progress", session_id := some order.session_id,
       action := some "ask_user",
       prompt := some ("Perfect! " ++ crust ++ " crust it is. Would you like a vegetarian pizza or one with meat?"),
       next_state := some "CHOOSE_CATEGORY",
       instructions_for_ai := some "Acknowledge their choice and ask this next question." })

/-- `PizzaOrderGuide._handle_category_choice` (lines 147-176). -/
def handleCategoryChoice (order : PizzaOrder) (response : String) : PizzaOrder × PizzaResult :=
  let response_lower := pyLower response
  if pyIn "veg" response_lower then
    let order := { order with category := some "vegetarian", state := "CHOOSE_TOPPINGS" }
    (order,
     { status := "in_progress", session_id := some order.session_id,
       action := some "ask_user",
       prompt := some ("Great choice! Here are your vegetarian topping options:\n\n"
                        ++ joinComma VEGETARIAN_TOPPINGS
                        ++ "\n\nPlease list the toppings you'd like (e.g., 'Mushrooms, Olives, Bell Peppers')"),
       next_state := some "CHOOSE_TOPPINGS",
       available_toppings := some VEGETARIAN_TOPPINGS,
       instructions_for_ai := some "Show the user the topping options and wait for their selection." })
  else if pyIn "meat" response_lower then
    let order := { order with category := some "meat", state := "CHOOSE_TOPPINGS" }
    (order,
     { status := "in_progress", session_id := some order.session_id,
       action := some "ask_user",
       prompt := some ("Great choice! Here are your meat topping options:\n\n"
                        ++ joinComma MEAT_TOPPINGS
                        ++ "\n\nPlease list the toppings you'd like (e.g., 'Mushrooms, Olives, Bell Peppers')"),
       next_state := some "CHOOSE_TOPPINGS",
       available_toppings := some MEAT_TOPPINGS,
       instructions_for_ai := some "Show the user the topping options and wait for their selection." })
  else
    (order,
     { status := "in_progress", session_id := some order.session_id,
       action := some "ask_user",
       prompt := some "Please say 'vegetarian' or 'meat'.",
       stay_in_state := true })

/-- Topping options offered in `_handle_toppings_choice` (line 181). -/
def availableToppings (order : PizzaOrder) : List String :=
  if order.category = some "vegetarian" then VEGETARIAN_TOPPINGS else MEAT_TOPPINGS

/-- The toppings `_handle_toppings_choice` resolves from the response
(lines 183-190): split on commas (after turning `" and "` into a comma),
strip each part and keep those the option matcher resolves. -/
def selectedToppings (order : PizzaOrder) (response : String) : List String :=
  (pySplitComma (pyReplace response " and " ",")).filterMap
    (fun part => matchOption (pyStrip part) (availableToppings order))

/-- `PizzaOrderGuide._handle_toppings_choice` (lines 178-212). -/
def handleToppingsChoice (order : PizzaOrder) (response : String) : PizzaOrder × PizzaResult :=
  let available := availableToppings order
  let selected := selectedToppings order response
  if selected.isEmpty then
    (order,
     { status := "in_progress", session_id := some order.session_id,
       action := some "ask_user",
       prompt := some ("I didn't recognize any of those toppings. Please choose from: " ++ joinComma available),
       stay_in_state := true })
  else
    let order := { order with toppings := selected, state := "CHOOSE_SIZE" }
    (order,
     { status := "in_progress", session_id := some order.session_id,
       action := some "ask_user",
       prompt := some ("Excellent! Your pizza will have: " ++ joinComma selected
                        ++ "\n\nWhat size would you like?\n\nOptions: " ++ joinComma SIZES),
       next_state := some "CHOOSE_SIZE",
       instructions_for_ai := some "Confirm their toppings and ask about size." })

/-- `PizzaOrderGuide._handle_size_choice` (lines 214-241). -/
def handleSizeChoice (order : PizzaOrder) (response : String) : PizzaOrder × PizzaResult :=
  match matchOption response SIZES with
  | none =>
    (order,
     { status := "in_progress", session_id := some order.session_id,
       action := some "ask_user",
       prompt := some ("Please choose from: " ++ joinComma SIZES),
       stay_in_state := true })
  | some size =>
    let order := { order with size := some size, state := "CONFIRM" }
    let summary := generateSummary order
    (order,
     { status := "in_progress", session_id := some order.session_id,
       action := some "ask_user",
       prompt := some ("Here's your order:\n\n" ++ summary ++ "\n\nLooks good? (yes/no)"),
       next_state := some "CONFIRM",
       order_summary := some summary,
       instructions_for_ai := some "Show the order summary and ask for confirmation." })

/-- The affirmative-response test of `_handle_confirmation` (line 247). -/
def pizzaAffirmative (response : String) : Bool :=
  let response_lower := pyLower response
  pyIn "yes" response_lower || pyIn "confirm" response_lower || pyIn "looks good" response_lower

/-- `PizzaOrderGuide._handle_confirmation` (lines 243-269).  Returns
`none` for the order when the source deletes the session from the store. -/
def handleConfirmation (order : PizzaOrder) (response : String) : Option PizzaOrder × PizzaResult :=
  if pizzaAffirmative response then
    let order := { order with state := "COMPLETE" }
    let summary := generateSummary order
    (some order,
     { status := "complete", session_id := some order.session_id,
       action := some "respond",
       message := some ("🎉 Order confirmed!\n\n" ++ summary
                         ++ "\n\nYour pizza will be ready in 20-30 minutes. Thank you!"),
       order := some order,
       instructions_for_ai := some "Tell the user their order is confirmed and provide the summary." })
  else
    (none,
     { status := "cancelled", session_id := some order.session_id,
       action := some "respond",
       message := some "No problem! Your order has been cancelled. Feel free to start a new order anytime.",
       instructions_for_ai := some "Tell the user the order was cancelled." })

/-- The session-not-found error dict of `continue_order` (lines 89-93). -/
def notFoundResult (sid : String) : PizzaResult :=
  { status := "error",
    message := some ("Session " ++ sid ++ " not found. Please start a new order.") }

/-- The fallback error dict of `continue_order`'s final `else` branch
(lines 114-118), returned for any state with no handler. -/
def unknownStateResult (st : String) : PizzaResult :=
  { status := "error", message := some ("Unknown state: " ++ st) }

/-- The state-dispatch of `continue_order` (lines 96-118) for an existing
order: strips the response and hands it to the handler for the current
state; `none` for the order means it was deleted from the store. -/
def pizzaStep (order : PizzaOrder) (user_response : String) : Option PizzaOrder × PizzaResult :=
  let response := pyStrip user_response
  if order.state = "CHOOSE_CRUST" then
    let (o, r) := handleCrustChoice order response
    (some o, r)
  else if order.state = "CHOOSE_CATEGORY" then
    let (o, r) := handleCategoryChoice order response
    (some o, r)
  else if order.state = "CHOOSE_TOPPINGS" then
    let (o, r) := handleToppingsChoice order response
    (some o, r)
  else if order.state = "CHOOSE_SIZE" then
    let (o, r) := handleSizeChoice order response
    (some o, r)
  else if order.state = "CONFIRM" then
    handleConfirmation order response
  else
    (some order, unknownStateResult order.state)

/-- `PizzaOrderGuide.continue_order` (lines 82-118), with the session dict
passed explicitly: look the session up, dispatch on its state, and write
the mutated session back (or delete it, when confirmation cancels). -/
def continueOrder (sessions : List (String × PizzaOrder)) (session_id user_response : String) :
    List (String × PizzaOrder) × PizzaResult :=
  match storeGet sessions session_id with
  | none => (sessions, notFoundResult session_id)
  | some order =>
    match pizzaStep order user_response with
    | (some o, r) => (storeSet sessions session_id o, r)
    | (none, r) => (storeErase sessions session_id, r)

/-- `PizzaOrderGuide.start_order` (lines 63-80); the random UUID is an
external input, passed as `sid`. -/
def startOrder (sessions : List (String × PizzaOrder)) (sid : String) :
    List (String × PizzaOrder) × PizzaResult :=
  let order : PizzaOrder := { session_id := sid, state := "CHOOSE_CRUST" }
  (storeSet sessions sid order,
   { status := "in_progress", session_id := some sid,
     action := some "ask_user",
     prompt := some ("Great! Let's build your perfect pizza. What kind of crust would you like?\n\nOptions: "
                      ++ joinComma CRUSTS),
     next_state := some "CHOOSE_CRUST",
     instructions_for_ai := some "Ask the user this exact question and wait for their response." })

/-! ## Medical triage guide (`triage_guide.py`) -/

/-- `TriageLevel` enum (triage_guide.py lines 19-25). -/
inductive TriageLevel where
  | IMMEDIATE
  | EMERGENCY
  | URGENT
  | SEMI_URGENT
  | NON_URGENT
deriving DecidableEq, Repr

/-- The `.value` string of each `TriageLevel` member. -/
def TriageLevel.value : TriageLevel → String
  | .IMMEDIATE => "Level 1 - Immediate (Life-threatening)"
  | .EMERGENCY => "Level 2 - Emergency (10 min)"
  | .URGENT => "Level 3 - Urgent (30 min)"
  | .SEMI_URGENT => "Level 4 - Semi-urgent (60 min)"
  | .NON_URGENT => "Level 5 - Non-urgent (120 min)"

/-- `TriageSession` dataclass (lines 28-64).  `created_at` and the
per-entry timestamps are wall-clock values and are not modelled; audit
entries are kept as their step names, in order.  The opaque dict-valued
collaborator data (`medical_history`, `vitals`) is modelled as string
key-value pairs. -/
structure TriageSession where
  session_id : String
  state : String := "START"
  red_flags_checked : Bool := false
  has_red_flags : Bool := false
  red_flag_details : List String := []
  chief_complaint : Option String := none
  medical_history : List (String × String) := []
  vitals : List (String × String) := []
  vitals_critical : Bool := false
  severity_score : Int := 0
  triage_level : Option TriageLevel := none
  recommendation : Option String := none
  protocol_steps : List String := []
deriving DecidableEq, Repr

/-- `TriageSession.add_step` (lines 58-64): append one audit entry. -/
def addStep (session : TriageSession) (step : String) : TriageSession :=
  { session with protocol_steps := session.protocol_steps ++ [step] }

/-- The `classification` sub-dict of an agent report (lines 188-197);
missing keys take the Python `dict.get` defaults used by the source. -/
structure Classification where
  requires_emergency_protocol : Bool := false
  critical_symptoms : List String := []
  severity : Option String := none
deriving DecidableEq, Repr

/-- The `agent_report` dict consumed by `continue_triage` (lines 136-149
and the fields each handler reads via `report.get`); missing keys are
`none` / empty, matching the source's `get` defaults. -/
structure AgentReport where
  classification : Classification := {}
  symptoms_detected : List String := []
  patient_statement : Option String := none
  chief_complaint : Option String := none
  medical_history : List (String × String) := []
  high_risk_conditions : List String := []
  vitals : List (String × String) := []
  critical_values : List String := []
  record_id : Option String := none
  status : Option String := none
deriving DecidableEq, Repr

/-- The result dict returned by `MedicalTriageGuide` operations; keys
absent from a given return site are `none`.  The presentation-only nested
payloads (`triage_data`, `data_for_assessment`, `protocol_compliance`)
are not modelled; `audit_trail` carries the session's step names. -/
structure TriageResult where
  status : String
  session_id : Option String := none
  task : Option String := none
  decision : Option String := none
  triage_level : Option String := none
  red_flags_detected : Option (List String) := none
  prompt : Option String := none
  message : Option String := none
  recommendation : Option String := none
  instructions_for_agent : Option String := none
  required_data : Option (List String) := none
  protocol : Option String := none
  audit_trail : Option (List String) := none
  emergency_message : Option String := none
deriving DecidableEq, Repr

/-- The emergency instruction text repeated at lines 239-246 and 408-415. -/
def emergencyMessageText : String :=
  "🚨 EMERGENCY: Based on your symptoms, you need immediate medical attention.\n\n"
    ++ "Please do ONE of the following RIGHT NOW:\n"
    ++ "1. Call 911 (or your local emergency number)\n"
    ++ "2. Go to the nearest Emergency Department\n"
    ++ "3. If with someone, have them drive you to the ER\n\n"
    ++ "Do NOT wait. Do NOT drive yourself if symptoms worsen."

/-- `MedicalTriageGuide._handle_red_flag_screening` (lines 183-264),
with the source's mutation order kept: mark screening done, append the
`red_flag_screening` entry, then either escalate (set the red-flag data,
write `EMERGENCY_ESCALATION` to `state`, append the escalation entry,
then overwrite `state` with `SAVE_RECORD`) or advance to
`CHIEF_COMPLAINT` and append the passed entry. -/
def handleRedFlagScreening (session : TriageSession) (report : AgentReport) :
    TriageSession × TriageResult :=
  let session := { session with red_flags_checked := true }
  let requires_emergency := report.classification.requires_emergency_protocol
  let detected_red_flags := report.classification.critical_symptoms
  let session := addStep session "red_flag_screening"
  if requires_emergency then
    let session := { session with
      has_red_flags := true,
      red_flag_details := detected_red_flags,
      state := "EMERGENCY_ESCALATION",
      triage_level := some TriageLevel.IMMEDIATE,
      recommendation := some "IMMEDIATE EMERGENCY CARE REQUIRED" }
    let session := addStep session "emergency_escalation_activated"
    let session := { session with state := "SAVE_RECORD" }
    (session,
     { status := "emergency_save_required", session_id := some session.session_id,
       decision := some "EMERGENCY_ESCALATION",
       triage_level := some TriageLevel.IMMEDIATE.value,
       red_flags_detected := some detected_red_flags,
       task := some "save_triage_record",
       instructions_for_agent := some "Emergency triage completed. Save the triage record to patient file before final response.",
       protocol := some "Emergency Escalation Protocol - Record Saving",
       audit_trail := some session.protocol_steps,
       emergency_message := some emergencyMessageText })
  else
    let session := { session with state := "CHIEF_COMPLAINT" }
    let session := addStep session "red_flag_screening_passed"
    (session,
     { status := "in_progress", session_id := some session.session_id,
       task := some "gather_chief_complaint",
       instructions_for_agent := some "Red flag screening passed. Now gather the chief complaint. Ask the patient what brought them in today.",
       prompt := some "Thank you. Now, what brings you in today? What is the main issue you're experiencing?",
       required_data := some ["chief_complaint", "symptom_description"],
       protocol := some "Standard Triage - Chief Complaint" })

/-- `MedicalTriageGuide._handle_chief_complaint` (lines 266-285). -/
def handleChiefComplaint (session : TriageSession) (report : AgentReport) :
    TriageSession × TriageResult :=
  let session := { session with chief_complaint := some (report.chief_complaint.getD "") }
  let session := addStep session "chief_complaint_gathered"
  let session := { session with state := "MEDICAL_HISTORY" }
  (session,
   { status := "in_progress", session_id := some session.session_id,
     task := some "check_medical_history",
     instructions_for_agent := some "Use available tools to check patient's medical history. Look for: chronic conditions, medications, allergies, previous similar episodes. This helps assess risk factors.",
     prompt := some "I'm checking your medical history. Do you have any chronic conditions, take any medications, or have any allergies I should know about?",
     required_data := some ["medical_history", "medications", "allergies"],
     protocol := some "Standard Triage - Medical History Review" })

/-- `MedicalTriageGuide._handle_medical_history` (lines 287-311): record
the history, append one entry, add 2 to the severity score when the
report lists high-risk conditions, advance to `VITAL_SIGNS`. -/
def handleMedicalHistory (session : TriageSession) (report : AgentReport) :
    TriageSession × TriageResult :=
  let session := { session with medical_history := report.medical_history }
  let session := addStep session "medical_history_checked"
  let session :=
    if report.high_risk_conditions.isEmpty then session
    else { session with severity_score := session.severity_score + 2 }
  let session := { session with state := "VITAL_SIGNS" }
  (session,
   { status := "in_progress", session_id := some session.session_id,
     task := some "get_vital_signs",
     instructions_for_agent := some "MANDATORY: Obtain vital signs. Use available monitoring tools. Required: Blood pressure, heart rate, temperature, respiratory rate, oxygen saturation. Flag any critical values immediately.",
     prompt := some "Now I need to check your vital signs. This is a required step for proper assessment.",
     required_data := some ["blood_pressure", "heart_rate", "temperature", "respiratory_rate", "oxygen_saturation"],
     protocol := some "Standard Triage - Vital Signs (Mandatory)" })

/-- `MedicalTriageGuide._handle_vital_signs` (lines 313-347): record the
vitals and whether any were critical, append one entry, add 3 to the
severity score when critical values were reported, advance to
`SEVERITY_ASSESSMENT`. -/
def handleVitalSigns (session : TriageSession) (report : AgentReport) :
    TriageSession × TriageResult :=
  let critical_values := report.critical_values
  let session := { session with
    vitals := report.vitals,
    vitals_critical := decide (critical_values.length > 0) }
  let session := addStep session "vital_signs_obtained"
  let session :=
    if critical_values.isEmpty then session
    else { session with severity_score := session.severity_score + 3 }
  let session := { session with state := "SEVERITY_ASSESSMENT" }
  (session,
   { status := "in_progress", session_id := some session.session_id,
     task := some "assess_severity",
     instructions_for_agent := some "All required data collected. Now assess overall severity and determine appropriate triage level and care recommendation.",
     protocol := some "Final Triage Assessment" })

/-- `MedicalTriageGuide._generate_final_message` (lines 420-439), kept as
a presentation string over the session's fields. -/
def generateFinalMessage (session : TriageSession) : String :=
  "TRIAGE ASSESSMENT COMPLETE\n\nTriage Level: "
    ++ ((session.triage_level.map TriageLevel.value).getD "None")
    ++ "\nRecommendation: " ++ session.recommendation.getD "None"
    ++ "\nSymptoms: " ++ session.chief_complaint.getD "None"

/-- `MedicalTriageGuide._handle_severity_assessment` (lines 349-385):
derive the triage level from the severity score and critical vitals,
append one entry, set `state` to `COMPLETE`. -/
def handleSeverityAssessment (session : TriageSession) (report : AgentReport) :
    TriageSession × TriageResult :=
  let session :=
    if session.severity_score ≥ 5 || session.vitals_critical then
      { session with triage_level := some TriageLevel.EMERGENCY,
                     recommendation := some "Emergency Department - within 10 minutes" }
    else if session.severity_score ≥ 3 then
      { session with triage_level := some TriageLevel.URGENT,
                     recommendation := some "Urgent Care or ED - within 30 minutes" }
    else if session.severity_score ≥ 2 then
      { session with triage_level := some TriageLevel.SEMI_URGENT,
                     recommendation := some "Urgent Care - within 60 minutes" }
    else
      { session with triage_level := some TriageLevel.NON_URGENT,
                     recommendation := some "Primary care or telehealth - within 24 hours" }
  let session := addStep session "triage_completed"
  let session := { session with state := "COMPLETE" }
  (session,
   { status := "complete", session_id := some session.session_id,
     triage_level := session.triage_level.map TriageLevel.value,
     recommendation := session.recommendation,
     message := some (generateFinalMessage session),
     audit_trail := some session.protocol_steps })

/-- `MedicalTriageGuide._handle_save_record` (lines 387-418): append the
`triage_record_saved` entry and complete the emergency escalation. -/
def handleSaveRecord (session : TriageSession) (report : AgentReport) :
    TriageSession × TriageResult :=
  let session := addStep session "triage_record_saved"
  let session := { session with state := "COMPLETE" }
  (session,
   { status := "emergency", session_id := some session.session_id,
     decision := some "EMERGENCY_ESCALATION",
     triage_level := session.triage_level.map TriageLevel.value,
     red_flags_detected := some session.red_flag_details,
     task := some "emergency_response",
     instructions_for_agent := some "Triage record saved. Emergency protocol complete.",
     message := some emergencyMessageText,
     protocol := some "Emergency Escalation Protocol - Complete",
     audit_trail := some session.protocol_steps })

/-- The session-not-found error dict of `continue_triage` (lines 150-154). -/
def triageNotFoundResult (sid : String) : TriageResult :=
  { status := "error",
    message := some ("Session " ++ sid ++ " not found. Please start a new triage.") }

/-- The fallback error dict of `continue_triage`'s final `else` branch
(lines 177-181), returned for any state with no handler. -/
def triageUnknownStateResult (st : String) : TriageResult :=
  { status := "error", message := some ("Unknown state: " ++ st) }

/-- The state-dispatch of `continue_triage` (lines 158-181) for an
existing session. -/
def triageStep (session : TriageSession) (report : AgentReport) :
    TriageSession × TriageResult :=
  if session.state = "RED_FLAG_SCREENING" then
    handleRedFlagScreening session report
  else if session.state = "CHIEF_COMPLAINT" then
    handleChiefComplaint session report
  else if session.state = "MEDICAL_HISTORY" then
    handleMedicalHistory session report
  else if session.state = "VITAL_SIGNS" then
    handleVitalSigns session report
  else if session.state = "SEVERITY_ASSESSMENT" then
    handleSeverityAssessment session report
  else if session.state = "SAVE_RECORD" then
    handleSaveRecord session report
  else
    (session, triageUnknownStateResult session.state)

/-- `MedicalTriageGuide.continue_triage` (lines 136-181) with the session
dict passed explicitly. -/
def continueTriage (sessions : List (String × TriageSession)) (session_id : String)
    (agent_report : AgentReport) : List (String × TriageSession) × TriageResult :=
  match storeGet sessions session_id with
  | none => (sessions, triageNotFoundResult session_id)
  | some session =>
    let (s, r) := triageStep session agent_report
    (storeSet sessions session_id s, r)

/-- The session `start_triage` (lines 102-113) creates and stores before
returning: initial state `RED_FLAG_SCREENING` with the `triage_started`
audit entry. -/
def startSession (sid : String) : TriageSession :=
  addStep { session_id := sid, state := "RED_FLAG_SCREENING" } "triage_started"

/-- `MedicalTriageGuide.start_triage` (lines 102-134); the random UUID is
an external input, passed as `sid`. -/
def startTriage (sessions : List (String × TriageSession)) (sid : String) :
    List (String × TriageSession) × TriageResult :=
  let session := startSession sid
  (storeSet sessions sid session,
   { status := "in_progress", session_id := some sid,
     task := some "screen_red_flags",
     instructions_for_agent := some "CRITICAL: Before anything else, screen for emergency symptoms. This is mandatory protocol.",
     prompt := some "Before we begin, I need to ask about any immediate concerns. Are you experiencing severe chest pain, difficulty breathing, loss of consciousness, severe bleeding, signs of stroke, or a severe allergic reaction? Please answer yes or no, and describe any symptoms.",
     required_data := some ["symptoms_present", "symptom_details"],
     protocol := some "Emergency Department Triage Protocol - Red Flag Screening (Mandatory)" })

/-! ## Derived observations used by the verification -/

/-- The collection states of the pizza workflow: the states whose handler
validates the response and may stay in state. -/
def pizzaCollectionStates : List String :=
  ["CHOOSE_CRUST", "CHOOSE_CATEGORY", "CHOOSE_TOPPINGS", "CHOOSE_SIZE"]

/-- The validation-failure condition of each pizza collection-state
handler, read off the `if not ...:` guards of pizza_guide.py lines
125, 157, 192 and 218 (`response` here is the already-stripped response
the handler receives). -/
def pizzaValidationFails (order : PizzaOrder) (response : String) : Bool :=
  if order.state = "CHOOSE_CRUST" then (matchOption response CRUSTS).isNone
  else if order.state = "CHOOSE_CATEGORY" then
    !(pyIn "veg" (pyLower response)) && !(pyIn "meat" (pyLower response))
  else if order.state = "CHOOSE_TOPPINGS" then (selectedToppings order response).isEmpty
  else if order.state = "CHOOSE_SIZE" then (matchOption response SIZES).isNone
  else false

/-- The sequence of values the source assigns to `order.state` during one
`continue_order` call, in execution order (pizza_guide.py lines 96-269:
each handler writes `state` at most once, on its success branch). -/
def pizzaStateWrites (order : PizzaOrder) (user_response : String) : List String :=
  if order.state = "CHOOSE_CRUST" then
    match matchOption (pyStrip user_response) CRUSTS with
    | none => []
    | some _ => ["CHOOSE_CATEGORY"]
  else if order.state = "CHOOSE_CATEGORY" then
    if pyIn "veg" (pyLower (pyStrip user_response)) then ["CHOOSE_TOPPINGS"]
    else if pyIn "meat" (pyLower (pyStrip user_response)) then ["CHOOSE_TOPPINGS"]
    else []
  else if order.state = "CHOOSE_TOPPINGS" then
    if (selectedToppings order (pyStrip user_response)).isEmpty then [] else ["CHOOSE_SIZE"]
  else if order.state = "CHOOSE_SIZE" then
    match matchOption (pyStrip user_response) SIZES with
    | none => []
    | some _ => ["CONFIRM"]
  else if order.state = "CONFIRM" then
    if pizzaAffirmative (pyStrip user_response) then ["COMPLETE"] else []
  else []

/-- The sequence of values the source assigns to `session.state` during
one `continue_triage` call, in execution order (triage_guide.py lines
158-418).  The emergency branch of red-flag screening assigns twice:
`EMERGENCY_ESCALATION` at line 205, then `SAVE_RECORD` at line 218. -/
def triageStateWrites (session : TriageSession) (report : AgentReport) : List String :=
  if session.state = "RED_FLAG_SCREENING" then
    if report.classification.requires_emergency_protocol then
      ["EMERGENCY_ESCALATION", "SAVE_RECORD"]
    else ["CHIEF_COMPLAINT"]
  else if session.state = "CHIEF_COMPLAINT" then ["MEDICAL_HISTORY"]
  else if session.state = "MEDICAL_HISTORY" then ["VITAL_SIGNS"]
  else if session.state = "VITAL_SIGNS" then ["SEVERITY_ASSESSMENT"]
  else if session.state = "SEVERITY_ASSESSMENT" then ["COMPLETE"]
  else if session.state = "SAVE_RECORD" then ["COMPLETE"]
  else []

/-- The six states `continue_triage` has a handler for. -/
def triageHandledStates : List String :=
  ["RED_FLAG_SCREENING", "CHIEF_COMPLAINT", "MEDICAL_HISTORY",
   "VITAL_SIGNS", "SEVERITY_ASSESSMENT", "SAVE_RECORD"]

/-! ## Concrete fixtures used by closed theorems -/

/-- A pizza order that has reached the terminal state `COMPLETE`. -/
def completePizzaOrder : PizzaOrder :=
  { session_id := "p1", state := "COMPLETE", crust := some "Thin",
    category := some "vegetarian", toppings := ["Mushrooms"], size := some "Small (10\")" }

/-- A triage session that has reached the terminal state `COMPLETE`. -/
def completeTriageSession : TriageSession :=
  { session_id := "t1", state := "COMPLETE", red_flags_checked := true,
    chief_complaint := some "headache",
    triage_level := some TriageLevel.NON_URGENT,
    recommendation := some "Primary care or telehealth - within 24 hours",
    protocol_steps := ["triage_started", "red_flag_screening", "red_flag_screening_passed",
                       "chief_complaint_gathered", "medical_history_checked",
                       "vital_signs_obtained", "triage_completed"] }

/-- A freshly started triage session (what `start_triage` stores). -/
def screeningSession : TriageSession := startSession "t2"

/-- An agent report whose classifier flagged an emergency. -/
def emergencyReport : AgentReport :=
  { classification := { requires_emergency_protocol := true,
                        critical_symptoms := ["severe chest pain"],
                        severity := some "critical" },
    symptoms_detected := ["severe chest pain"],
    patient_statement := some "crushing chest pain" }

/-- A fresh pizza order waiting for a crust choice. -/
def crustSample : PizzaOrder := { session_id := "w6", state := "CHOOSE_CRUST" }

/-- A pizza order waiting for final confirmation. -/
def confirmSample : PizzaOrder :=
  { session_id := "w10", state := "CONFIRM", crust := some "Thin",
    category := some "meat", toppings := ["Ham"], size := some "Medium (12\")" }

/-- Store after `start_order` in the pizza scenario. -/
def c8Store1 : List (String × PizzaOrder) := (startOrder [] "s8").fst

/-- Store after answering `thin` in the pizza scenario. -/
def c8Store2 : List (String × PizzaOrder) := (continueOrder c8Store1 "s8" "thin").fst

/-- Store after the unresolvable category answer `xyz` in the pizza scenario. -/
def c8Store3 : List (String × PizzaOrder) := (continueOrder c8Store2 "s8" "xyz").fst

/-- The pizza session as it stands after the `thin` answer. -/
def c8OrderAfterThin : PizzaOrder :=
  { session_id := "s8", state := "CHOOSE_CATEGORY", crust := some "Thin" }

/-! ## Store lemmas -/

theorem storeGet_set_self {α : Type} (st : List (String × α)) (k : String) (v : α) :
    storeGet (storeSet st k v) k = some v := by
  induction st with
  | nil => simp [storeGet, storeSet]
  | cons p t ih =>
    by_cases h : p.fst = k
    · simp [storeGet, storeSet, h]
    · simp [storeGet, storeSet, h, ih]

theorem storeGet_erase_self {α : Type} (st : List (String × α)) (k : String) :
    storeGet (storeErase st k) k = none := by
  induction st with
  | nil => simp [storeGet, storeErase]
  | cons p t ih =>
    by_cases h : p.fst = k
    · simp [storeErase, h, ih]
    · simp [storeGet, storeErase, h, ih]

/-! ## Audit-trail and field lemmas -/

theorem addStep_length (s : TriageSession) (x : String) :
    (addStep s x).protocol_steps.length = s.protocol_steps.length + 1 := by
  simp [addStep]

theorem substringOf_nil (l : List Char) : substringOf [] l = true := by
  cases l <;> simp [substringOf, List.isEmpty, List.isPrefixOf]

/-- One `triageStep` never turns `has_red_flags` from `true` to `false`. -/
theorem triageStep_preserves_red_flags (s : TriageSession) (r : AgentReport)
    (h : s.has_red_flags = true) : (triageStep s r).fst.has_red_flags = true := by
  unfold triageStep handleRedFlagScreening handleChiefComplaint handleMedicalHistory
    handleVitalSigns handleSeverityAssessment handleSaveRecord addStep
  split_ifs <;> simp_all <;> split_ifs <;> simp_all

/-- One `triageStep` never lowers `severity_score`. -/
theorem triageStep_severity_mono (s : TriageSession) (r : AgentReport) :
    s.severity_score ≤ (triageStep s r).fst.severity_score := by
  unfold triageStep handleRedFlagScreening handleChiefComplaint handleMedicalHistory
    handleVitalSigns handleSeverityAssessment handleSaveRecord addStep
  split_ifs <;> simp_all <;> try split_ifs <;> simp_all

theorem pyIn_nil (s : String) : pyIn "" s = true := substringOf_nil s.data

/-! ## Claims -/

/-- C3: for every triage session and every sequence of `continue` calls
with arbitrary reports, once `has_red_flags` is `true` it stays `true`:
no transition function ever resets it to `false`. -/
theorem C3_escalated_monotone (reports : List AgentReport) (s : TriageSession)
    (h : s.has_red_flags = true) :
    (reports.foldl (fun t r => (triageStep t r).fst) s).has_red_flags = true := by
  induction reports generalizing s with
  | nil => simpa using h
  | cons r rs ih => exact ih _ (triageStep_preserves_red_flags s r h)

/-- Witness for C3 at a concrete escalated session and two further calls. -/
theorem C3_witness :
    ({ session_id := "w3", state := "SAVE_RECORD", has_red_flags := true } : TriageSession).has_red_flags = true ∧
    ([({} : AgentReport), {}].foldl (fun t r => (triageStep t r).fst)
      { session_id := "w3", state := "SAVE_RECORD", has_red_flags := true }).has_red_flags = true :=
  ⟨rfl, C3_escalated_monotone [{}, {}]
    { session_id := "w3", state := "SAVE_RECORD", has_red_flags := true } rfl⟩

/-- C5: `severity_score` is monotonic non-decreasing, both over one
`continue` call (no checkpoint lowers it) and over any sequence of calls. -/
theorem C5_severity_monotone :
    (∀ (s : TriageSession) (r : AgentReport),
        s.severity_score ≤ (triageStep s r).fst.severity_score) ∧
    (∀ (reports : List AgentReport) (s : TriageSession),
        s.severity_score
          ≤ (reports.foldl (fun t r => (triageStep t r).fst) s).severity_score) := by
  refine ⟨triageStep_severity_mono, ?_⟩
  intro reports
  induction reports with
  | nil => intro s; simp
  | cons r rs ih => intro s; exact le_trans (triageStep_severity_mono s r) (ih _)

/-- C7: `start_triage` creates the session in `RED_FLAG_SCREENING`; a
`continue` whose report classifies the case with
`requires_emergency_protocol = true` sets the escalated flag and forces
the state directly onto the escalation branch (`SAVE_RECORD`), having
visited none of `CHIEF_COMPLAINT`, `MEDICAL_HISTORY`, `VITAL_SIGNS`:
the audit trail shows exactly start, screening and escalation. -/
theorem C7_emergency_scenario (tst : List (String × TriageSession)) (sid : String)
    (r : AgentReport) (hr : r.classification.requires_emergency_protocol = true) :
    storeGet (startTriage tst sid).fst sid = some (startSession sid) ∧
    (startSession sid).state = "RED_FLAG_SCREENING" ∧
    storeGet (continueTriage (startTriage tst sid).fst sid r).fst sid
      = some (triageStep (startSession sid) r).fst ∧
    (triageStep (startSession sid) r).fst.has_red_flags = true ∧
    (triageStep (startSession sid) r).fst.state = "SAVE_RECORD" ∧
    (triageStep (startSession sid) r).fst.protocol_steps
      = ["triage_started", "red_flag_screening", "emergency_escalation_activated"] := by
  have h1 : storeGet (startTriage tst sid).fst sid = some (startSession sid) :=
    storeGet_set_self tst sid (startSession sid)
  refine ⟨h1, rfl, ?_, ?_, ?_, ?_⟩
  · simp [continueTriage, h1, storeGet_set_self]
  · simp [triageStep, startSession, addStep, handleRedFlagScreening, hr]
  · simp [triageStep, startSession, addStep, handleRedFlagScreening, hr]
  · simp [triageStep, startSession, addStep, handleRedFlagScreening, hr]

/-- Witness for C7 at the concrete emergency report. -/
theorem C7_witness :
    emergencyReport.classification.requires_emergency_protocol = true ∧
    (triageStep (startSession "t7") emergencyReport).fst.has_red_flags = true ∧
    (triageStep (startSession "t7") emergencyReport).fst.state = "SAVE_RECORD" :=
  ⟨rfl, (C7_emergency_scenario [] "t7" emergencyReport rfl).2.2.2.1,
        (C7_emergency_scenario [] "t7" emergencyReport rfl).2.2.2.2.1⟩

/-- C1 counterexample: a `continue` against a terminal (`COMPLETE`)
session does fail, but not with a dedicated `SessionTerminated` failure
distinct from other errors: it returns exactly the generic unknown-state
fallback dict — the same response shape produced for a session whose
state has no handler at all — and its `status` is the same `"error"`
value used by the session-not-found failure.  No `SessionTerminated`
outcome exists anywhere in the code. -/
theorem C1_counterexample :
    (continueOrder [("p1", completePizzaOrder)] "p1" "one more pizza").snd
      = unknownStateResult "COMPLETE" ∧
    (continueOrder [("p2", { completePizzaOrder with session_id := "p2", state := "SOME_UNDEFINED_STATE" })]
        "p2" "hello").snd = unknownStateResult "SOME_UNDEFINED_STATE" ∧
    (continueTriage [("t1", completeTriageSession)] "t1" {}).snd
      = triageUnknownStateResult "COMPLETE" ∧
    (unknownStateResult "COMPLETE").status = (notFoundResult "p1").status := by
  exact ⟨rfl, rfl, rfl, rfl⟩

/-- C1 amended: a `continue` against a terminal (`COMPLETE`) session in
either workflow fails via the generic unknown-state fallback (status
`"error"`, message `Unknown state: COMPLETE`) — not a dedicated
`SessionTerminated` failure — and the session is not mutated. -/
theorem C1_amended_terminal_fallback
    (pst : List (String × PizzaOrder)) (tst : List (String × TriageSession))
    (sid tid resp : String) (o : PizzaOrder) (s : TriageSession) (r : AgentReport)
    (ho : storeGet pst sid = some o) (hos : o.state = "COMPLETE")
    (hs : storeGet tst tid = some s) (hss : s.state = "COMPLETE") :
    (continueOrder pst sid resp).snd = unknownStateResult "COMPLETE" ∧
    storeGet (continueOrder pst sid resp).fst sid = some o ∧
    (continueTriage tst tid r).snd = triageUnknownStateResult "COMPLETE" ∧
    storeGet (continueTriage tst tid r).fst tid = some s := by
  have hp : pizzaStep o resp = (some o, unknownStateResult "COMPLETE") := by
    simp [pizzaStep, hos]
  have ht : triageStep s r = (s, triageUnknownStateResult "COMPLETE") := by
    simp [triageStep, hss]
  refine ⟨?_, ?_, ?_, ?_⟩ <;>
    simp [continueOrder, continueTriage, ho, hs, hp, ht, storeGet_set_self]

/-- Witness for C1 at the concrete terminal sessions. -/
theorem C1_witness :
    storeGet [("p1", completePizzaOrder)] "p1" = some completePizzaOrder ∧
    completePizzaOrder.state = "COMPLETE" ∧
    storeGet [("t1", completeTriageSession)] "t1" = some completeTriageSession ∧
    completeTriageSession.state = "COMPLETE" ∧
    storeGet (continueOrder [("p1", completePizzaOrder)] "p1" "more").fst "p1"
      = some completePizzaOrder :=
  ⟨rfl, rfl, rfl, rfl,
   (C1_amended_terminal_fallback [("p1", completePizzaOrder)] [("t1", completeTriageSession)]
      "p1" "t1" "more" completePizzaOrder completeTriageSession {} rfl rfl rfl rfl).2.1⟩

/-- C2 counterexample: the very first `continue` of a triage session (one
call that reaches the red-flag-screening transition function) appends TWO
audit entries, not exactly one: the trail grows from 1 entry to 3. -/
theorem C2_counterexample :
    screeningSession.protocol_steps.length = 1 ∧
    (triageStep screeningSession ({} : AgentReport)).fst.protocol_steps.length = 3 ∧
    (triageStep screeningSession ({} : AgentReport)).fst.protocol_steps
      = ["triage_started", "red_flag_screening", "red_flag_screening_passed"] := by
  exact ⟨rfl, rfl, rfl⟩

/-- C2 amended: in the triage workflow every `continue` call that reaches
a transition function appends exactly one audit entry, except red-flag
screening, which always appends exactly two (the screening record and its
outcome record); the pizza workflow keeps no audit trail at all. -/
theorem C2_amended_audit_counts (s : TriageSession) (r : AgentReport)
    (h : s.state ∈ triageHandledStates) :
    (triageStep s r).fst.protocol_steps.length
      = s.protocol_steps.length + (if s.state = "RED_FLAG_SCREENING" then 2 else 1) ∧
    (∀ o : PizzaOrder, o.auditTrail = []) := by
  constructor
  · rcases (by simpa [triageHandledStates] using h : _ ∨ _) with h1 | h1 | h1 | h1 | h1 | h1 <;>
      simp [triageStep, h1, handleRedFlagScreening, handleChiefComplaint, handleMedicalHistory,
        handleVitalSigns, handleSeverityAssessment, handleSaveRecord, addStep] <;>
      split_ifs <;> simp
  · intro o; rfl

/-- Witness for C2 at a freshly started session. -/
theorem C2_witness :
    (startSession "w2").state ∈ triageHandledStates ∧
    (triageStep (startSession "w2") ({} : AgentReport)).fst.protocol_steps.length
      = (startSession "w2").protocol_steps.length
        + (if (startSession "w2").state = "RED_FLAG_SCREENING" then 2 else 1) :=
  ⟨by decide, (C2_amended_audit_counts (startSession "w2") {} (by decide)).1⟩

/-- One pizza `continue` call ends at the last written state value (the
old state when nothing was written), and cancellation writes nothing. -/
theorem pizzaStep_state_writes (o : PizzaOrder) (resp : String) :
    Option.elim (pizzaStep o resp).fst (pizzaStateWrites o resp = [])
      (fun o2 => o2.state = (pizzaStateWrites o resp).getLastD o.state) := by
  by_cases h1 : o.state = "CHOOSE_CRUST"
  · cases hm : matchOption (pyStrip resp) CRUSTS <;>
      simp [pizzaStep, pizzaStateWrites, handleCrustChoice, h1, hm]
  by_cases h2 : o.state = "CHOOSE_CATEGORY"
  · by_cases hv : pyIn "veg" (pyLower (pyStrip resp)) = true
    · simp [pizzaStep, pizzaStateWrites, handleCategoryChoice, h1, h2, hv]
    · by_cases hme : pyIn "meat" (pyLower (pyStrip resp)) = true <;>
        simp [pizzaStep, pizzaStateWrites, handleCategoryChoice, h1, h2, hv, hme]
  by_cases h3 : o.state = "CHOOSE_TOPPINGS"
  · by_cases hs : (selectedToppings o (pyStrip resp)).isEmpty = true <;>
      simp [pizzaStep, pizzaStateWrites, handleToppingsChoice, h1, h2, h3, hs]
  by_cases h4 : o.state = "CHOOSE_SIZE"
  · cases hm : matchOption (pyStrip resp) SIZES <;>
      simp [pizzaStep, pizzaStateWrites, handleSizeChoice, h1, h2, h3, h4, hm]
  by_cases h5 : o.state = "CONFIRM"
  · by_cases ha : pizzaAffirmative (pyStrip resp) = true <;>
      simp [pizzaStep, pizzaStateWrites, handleConfirmation, h1, h2, h3, h4, h5, ha]
  · simp [pizzaStep, pizzaStateWrites, h1, h2, h3, h4, h5]

/-- C4 counterexample: the emergency branch of red-flag screening assigns
`session.state` twice within a single `continue` call — first
`EMERGENCY_ESCALATION` (triage_guide.py line 205), then `SAVE_RECORD`
(line 218) — so one call changes the state field twice, walking through
(and skipping over) an intermediate state. -/
theorem C4_counterexample :
    triageStateWrites screeningSession emergencyReport
      = ["EMERGENCY_ESCALATION", "SAVE_RECORD"] ∧
    (triageStateWrites screeningSession emergencyReport).length = 2 ∧
    (triageStep screeningSession emergencyReport).fst.state = "SAVE_RECORD" := by
  exact ⟨rfl, rfl, rfl⟩

/-- C4 amended: every `continue` call writes the state field at most once
— in the pizza workflow unconditionally, and in the triage workflow for
every call except the emergency branch of red-flag screening, which
writes it exactly twice (`EMERGENCY_ESCALATION` then `SAVE_RECORD`); the
session always ends the call at the last written value (its old state
when nothing was written). -/
theorem C4_amended_state_writes :
    (∀ (s : TriageSession) (r : AgentReport),
        (triageStep s r).fst.state = (triageStateWrites s r).getLastD s.state) ∧
    (∀ (s : TriageSession) (r : AgentReport),
        ¬(s.state = "RED_FLAG_SCREENING" ∧ r.classification.requires_emergency_protocol = true) →
        (triageStateWrites s r).length ≤ 1) ∧
    (∀ (s : TriageSession) (r : AgentReport), (triageStateWrites s r).length ≤ 2) ∧
    (∀ (o : PizzaOrder) (resp : String), (pizzaStateWrites o resp).length ≤ 1) ∧
    (∀ (o : PizzaOrder) (resp : String) (o2 : PizzaOrder),
        (pizzaStep o resp).fst = some o2 →
        o2.state = (pizzaStateWrites o resp).getLastD o.state) ∧
    (∀ (o : PizzaOrder) (resp : String),
        (pizzaStep o resp).fst = none → pizzaStateWrites o resp = []) := by
  refine ⟨?_, ?_, ?_, ?_, ?_, ?_⟩
  · intro s r
    unfold triageStep triageStateWrites handleRedFlagScreening handleChiefComplaint
      handleMedicalHistory handleVitalSigns handleSeverityAssessment handleSaveRecord addStep
    split_ifs <;> simp_all
  · intro s r h
    unfold triageStateWrites
    split_ifs <;> simp_all
  · intro s r
    unfold triageStateWrites
    split_ifs <;> simp
  · intro o resp
    unfold pizzaStateWrites
    split_ifs <;>
      first
        | (cases matchOption (pyStrip resp) CRUSTS <;> simp)
        | (cases matchOption (pyStrip resp) SIZES <;> simp)
  · intro o resp o2 h
    have hw := pizzaStep_state_writes o resp
    rw [h] at hw
    exact hw
  · intro o resp h
    have hw := pizzaStep_state_writes o resp
    rw [h] at hw
    exact hw

/-- Witness for C4 at a non-emergency call on a fresh session. -/
theorem C4_witness :
    (¬((startSession "w4").state = "RED_FLAG_SCREENING" ∧
        ({} : AgentReport).classification.requires_emergency_protocol = true)) ∧
    (triageStateWrites (startSession "w4") {}).length ≤ 1 ∧
    (triageStep (startSession "w4") ({} : AgentReport)).fst.state
      = (triageStateWrites (startSession "w4") {}).getLastD (startSession "w4").state :=
  ⟨by decide, C4_amended_state_writes.2.1 (startSession "w4") {} (by decide),
   C4_amended_state_writes.1 (startSession "w4") {}⟩

/-- C6: for every pizza session in a collection state and every input
that fails that state's validation, `continue_order` returns an
instruction carrying the `stay_in_state` marker with the non-error status
`in_progress`, and the session (in particular its state field) is left in
the store unchanged. -/
theorem C6_validation_failure_stays (st : List (String × PizzaOrder)) (sid resp : String)
    (o : PizzaOrder) (hget : storeGet st sid = some o)
    (hcoll : o.state ∈ pizzaCollectionStates)
    (hfail : pizzaValidationFails o (pyStrip resp) = true) :
    (continueOrder st sid resp).snd.stay_in_state = true ∧
    (continueOrder st sid resp).snd.status = "in_progress" ∧
    (continueOrder st sid resp).snd.status ≠ "error" ∧
    storeGet (continueOrder st sid resp).fst sid = some o := by
  rcases (by simpa [pizzaCollectionStates] using hcoll : _ ∨ _) with h1 | h1 | h1 | h1
  · have hm : matchOption (pyStrip resp) CRUSTS = none := by
      have := hfail
      simp [pizzaValidationFails, h1, Option.isNone_iff_eq_none] at this
      exact this
    refine ⟨?_, ?_, ?_, ?_⟩ <;>
      simp [continueOrder, hget, pizzaStep, handleCrustChoice, h1, hm, storeGet_set_self]
  · have hv : pyIn "veg" (pyLower (pyStrip resp)) = false ∧
        pyIn "meat" (pyLower (pyStrip resp)) = false := by
      have := hfail
      simp [pizzaValidationFails, h1] at this
      simpa using this
    refine ⟨?_, ?_, ?_, ?_⟩ <;>
      simp [continueOrder, hget, pizzaStep, handleCategoryChoice, h1, hv.1, hv.2,
        storeGet_set_self]
  · have hs : (selectedToppings o (pyStrip resp)).isEmpty = true := by
      have := hfail
      simp [pizzaValidationFails, h1] at this
      simpa using this
    refine ⟨?_, ?_, ?_, ?_⟩ <;>
      simp [continueOrder, hget, pizzaStep, handleToppingsChoice, h1, hs, storeGet_set_self]
  · have hm : matchOption (pyStrip resp) SIZES = none := by
      have := hfail
      simp [pizzaValidationFails, h1, Option.isNone_iff_eq_none] at this
      exact this
    refine ⟨?_, ?_, ?_, ?_⟩ <;>
      simp [continueOrder, hget, pizzaStep, handleSizeChoice, h1, hm, storeGet_set_self]

/-- Witness for C6: an unresolvable crust answer on a fresh order. -/
theorem C6_witness :
    storeGet [("w6", crustSample)] "w6" = some crustSample ∧
    crustSample.state ∈ pizzaCollectionStates ∧
    pizzaValidationFails crustSample (pyStrip "xyz") = true ∧
    (continueOrder [("w6", crustSample)] "w6" "xyz").snd.stay_in_state = true :=
  ⟨rfl, by decide, by decide,
   (C6_validation_failure_stays [("w6", crustSample)] "w6" "xyz" crustSample rfl
      (by decide) (by decide)).1⟩

/-- C8 counterexample: in the pizza scenario (start, answer `thin`, then
the unresolvable category answer `xyz`) the third call does leave the
session retained at `CHOOSE_CATEGORY`, but no audit-trail length
increments: `PizzaOrder` carries no audit trail, so the trail is empty
before and after the call instead of growing by one. -/
theorem C8_counterexample :
    storeGet c8Store2 "s8" = some c8OrderAfterThin ∧
    storeGet c8Store3 "s8" = some c8OrderAfterThin ∧
    c8OrderAfterThin.auditTrail = [] ∧
    ¬(c8OrderAfterThin.auditTrail.length = c8OrderAfterThin.auditTrail.length + 1) := by
  exact ⟨rfl, rfl, rfl, by simp⟩

/-- C8 amended: `start_order` creates the session in `CHOOSE_CRUST`;
`continue` with `thin` advances it to `CHOOSE_CATEGORY`; `continue` with
the unresolvable category input `xyz` stays in `CHOOSE_CATEGORY` with a
`stay_in_state` instruction and retains the same, unchanged session in
the store (the pizza workflow maintains no audit trail, so no audit
length is involved). -/
theorem C8_amended_scenario :
    storeGet c8Store1 "s8" = some { session_id := "s8", state := "CHOOSE_CRUST" } ∧
    (continueOrder c8Store1 "s8" "thin").snd.next_state = some "CHOOSE_CATEGORY" ∧
    storeGet c8Store2 "s8" = some c8OrderAfterThin ∧
    (continueOrder c8Store2 "s8" "xyz").snd.stay_in_state = true ∧
    (continueOrder c8Store2 "s8" "xyz").snd.status = "in_progress" ∧
    storeGet c8Store3 "s8" = some c8OrderAfterThin := by
  exact ⟨rfl, rfl, rfl, rfl, rfl, rfl⟩

/-- C10: in the `CONFIRM` state, any response that contains none of
`yes`, `confirm`, `looks good` deletes the session from the store
entirely and returns status `cancelled`; a subsequent `continue` with the
same id returns the session-not-found error. -/
theorem C10_nonaffirmative_cancels (st : List (String × PizzaOrder))
    (sid resp resp2 : String) (o : PizzaOrder)
    (hget : storeGet st sid = some o) (hstate : o.state = "CONFIRM")
    (haff : pizzaAffirmative (pyStrip resp) = false) :
    (continueOrder st sid resp).snd.status = "cancelled" ∧
    storeGet (continueOrder st sid resp).fst sid = none ∧
    (continueOrder (continueOrder st sid resp).fst sid resp2).snd = notFoundResult sid := by
  have h1 : (continueOrder st sid resp).fst = storeErase st sid ∧
      (continueOrder st sid resp).snd.status = "cancelled" := by
    constructor <;>
      simp [continueOrder, hget, pizzaStep, handleConfirmation, hstate, haff]
  refine ⟨h1.2, ?_, ?_⟩
  · rw [h1.1]; exact storeGet_erase_self st sid
  · rw [h1.1]
    simp [continueOrder, storeGet_erase_self]

/-- Witness for C10: a change request instead of a confirmation. -/
theorem C10_witness :
    storeGet [("w10", confirmSample)] "w10" = some confirmSample ∧
    confirmSample.state = "CONFIRM" ∧
    pizzaAffirmative (pyStrip "actually, change the size") = false ∧
    (continueOrder [("w10", confirmSample)] "w10" "actually, change the size").snd.status
      = "cancelled" :=
  ⟨rfl, rfl, by decide,
   (C10_nonaffirmative_cancels [("w10", confirmSample)] "w10" "actually, change the size"
      "hello" confirmSample rfl rfl (by decide)).1⟩

/-- C9: the option matcher on an empty or whitespace-only input (one that
lowercases and strips to the empty string) returns the first option of
any non-empty option list — the empty string is a substring of every
option — so a blank response in `CHOOSE_CRUST`, `CHOOSE_TOPPINGS` or
`CHOOSE_SIZE` does not stay in state but silently selects the first
listed option (`Thin`; the first available topping; `Small (10")`) and
advances. -/
theorem C9_blank_input_first_option :
    (∀ (options : List String) (s : String),
        options ≠ [] → pyStrip (pyLower s) = "" →
        matchOption s options = options.head?) ∧
    (∀ (o : PizzaOrder) (resp : String), o.state = "CHOOSE_CRUST" → pyStrip resp = "" →
        (pizzaStep o resp).fst = some { o with crust := some "Thin", state := "CHOOSE_CATEGORY" } ∧
        (pizzaStep o resp).snd.stay_in_state = false) ∧
    (∀ (o : PizzaOrder) (resp : String), o.state = "CHOOSE_TOPPINGS" → pyStrip resp = "" →
        (pizzaStep o resp).fst
          = some { o with toppings := (availableToppings o).take 1, state := "CHOOSE_SIZE" } ∧
        (pizzaStep o resp).snd.stay_in_state = false) ∧
    (∀ (o : PizzaOrder) (resp : String), o.state = "CHOOSE_SIZE" → pyStrip resp = "" →
        (pizzaStep o resp).fst = some { o with size := some "Small (10\")", state := "CONFIRM" } ∧
        (pizzaStep o resp).snd.stay_in_state = false) := by
  refine ⟨?_, ?_, ?_, ?_⟩
  · intro options s hne h
    cases options with
    | nil => exact absurd rfl hne
    | cons x xs =>
      simp only [matchOption, h, List.find?, List.head?]
      have hx : pyIn "" (pyLower x) = true := pyIn_nil (pyLower x)
      simp [hx]
  · intro o resp h1 h2
    have hm : matchOption "" CRUSTS = some "Thin" := by decide
    constructor <;> simp [pizzaStep, handleCrustChoice, h1, h2, hm]
  · intro o resp h1 h2
    by_cases hc : o.category = some "vegetarian"
    · have hsel : selectedToppings o "" = ["Mushrooms"] := by
        have : (pySplitComma (pyReplace "" " and " ",")).filterMap
            (fun part => matchOption (pyStrip part) VEGETARIAN_TOPPINGS) = ["Mushrooms"] := by
          decide
        simpa [selectedToppings, availableToppings, hc] using this
      constructor <;>
        simp [pizzaStep, handleToppingsChoice, h1, h2, hsel, availableToppings, hc,
          VEGETARIAN_TOPPINGS]
    · have hsel : selectedToppings o "" = ["Pepperoni"] := by
        have : (pySplitComma (pyReplace "" " and " ",")).filterMap
            (fun part => matchOption (pyStrip part) MEAT_TOPPINGS) = ["Pepperoni"] := by
          decide
        simpa [selectedToppings, availableToppings, hc] using this
      constructor <;>
        simp [pizzaStep, handleToppingsChoice, h1, h2, hsel, availableToppings, hc,
          MEAT_TOPPINGS]
  · intro o resp h1 h2
    have hm : matchOption "" SIZES = some "Small (10\")" := by decide
    constructor <;> simp [pizzaStep, handleSizeChoice, h1, h2, hm]

/-- Witness for C9: whitespace-only answers select the first option. -/
theorem C9_witness :
    pyStrip (pyLower "   ") = "" ∧ (["Alpha", "Beta"] : List String) ≠ [] ∧
    matchOption "   " ["Alpha", "Beta"] = some "Alpha" ∧
    pyStrip " " = "" ∧
    (pizzaStep { session_id := "w9", state := "CHOOSE_CRUST" } " ").fst
      = some { session_id := "w9", state := "CHOOSE_CATEGORY", crust := some "Thin" } :=
  ⟨by decide, by decide,
   C9_blank_input_first_option.1 ["Alpha", "Beta"] "   " (by decide) (by decide),
   by decide,
   (C9_blank_input_first_option.2.1 { session_id := "w9", state := "CHOOSE_CRUST" } " "
      rfl (by decide)).1⟩
